import Mathlib

/-!
Verification development for the Session Hub of a WebSocket gateway that
multiplexes conversational sessions with a streaming code-assistant engine.

The embedding below translates, function by function, the TypeScript source:

* `CCSDKDatabase.createMessage`, `updateSession`, `createSession`, `getStats`
  (elysia-ws-adapter / database module),
* the `Session` class (`session.ts`): `addUserMessage`, `subscribe`,
  `unsubscribe`, `broadcastToSubscribers`, `saveMessageToDB`, `broadcast`,
  `broadcastError`, `cancel`, `cleanup`, `endConversation`,
* the `WebSocketHandler` class (`websocket-handler.ts`): `onMessage`,
  `getOrCreateSession`, `cleanupEmptySessions`,
* an event-loop interleaving semantics for concurrent `addUserMessage`
  callers (the `queryPromise` busy-wait protocol).

JavaScript nullable/optional values become `Option`; JavaScript string
truthiness (`""` and `null`/`undefined` are falsy) is made explicit in
`jsTruthyStr`; the `x || null` / `x || undefined` coercions of the source
become `jsOrNull*`.  Numbers carrying dollar costs become `Rat`; epoch
timestamps become `Nat`.
-/

namespace CCSDK

/-- JavaScript truthiness of a `string | null | undefined` value:
`null`/`undefined` and the empty string are falsy. -/
def jsTruthyStr : Option String → Bool
  | some s => s ≠ ""
  | none => false

/-- The `x || null` coercion applied to a `string | undefined` slot:
both a missing value and the empty string collapse to SQL `NULL`. -/
def jsOrNullStr : Option String → Option String
  | some s => if s = "" then none else some s
  | none => none

/-- The `x || null` coercion applied to a numeric slot: a missing value
and the number `0` (falsy in JavaScript) both collapse to SQL `NULL`. -/
def jsOrNullNum : Option ℚ → Option ℚ
  | some c => if c = 0 then none else some c
  | none => none

/-- The `x || null` coercion applied to an integer slot (`duration`). -/
def jsOrNullNat : Option ℕ → Option ℕ
  | some d => if d = 0 then none else some d
  | none => none

/-- `needle.isInfixOf haystack` on character lists, used to embed
JavaScript `String.prototype.includes`. -/
def listIsInfixOf : List Char → List Char → Bool
  | needle, [] => needle.isEmpty
  | needle, c :: rest => needle.isPrefixOf (c :: rest) || listIsInfixOf needle rest

/-- Embeds `haystack.includes(needle)` from JavaScript. -/
def containsSubstr (haystack needle : String) : Bool :=
  listIsInfixOf needle.toList haystack.toList

/-! ## Persistence store (`CCSDKDatabase`) -/

/-- One row of the `messages` table (schema in `initSchema`):
`session_id TEXT NOT NULL, type TEXT NOT NULL, subtype TEXT, content TEXT,
timestamp INTEGER NOT NULL, cost REAL, duration INTEGER, metadata TEXT`. -/
structure DBRow where
  session_id : String
  type : String
  subtype : Option String
  content : Option String
  timestamp : ℕ
  cost : Option ℚ
  duration : Option ℕ
  deriving Repr, DecidableEq

/-- `CCSDKDatabase.createMessage`: builds the inserted row.  The source
binds `data.subtype || null`, `data.content || null`, `data.cost || null`,
`data.duration || null` — the JavaScript falsy coercions embedded by the
`jsOrNull*` helpers. -/
def createMessage (sessionId type : String) (subtype content : Option String)
    (timestamp : ℕ) (cost : Option ℚ) (duration : Option ℕ) : DBRow :=
  { session_id := sessionId
    type := type
    subtype := jsOrNullStr subtype
    content := jsOrNullStr content
    timestamp := timestamp
    cost := jsOrNullNum cost
    duration := jsOrNullNat duration }

/-- `SELECT SUM(cost) FROM messages WHERE cost IS NOT NULL`, with the
`totalCost.total || 0` fallback of `getStats`: `NULL` costs are skipped. -/
def totalCost (rows : List DBRow) : ℚ :=
  (rows.filterMap (·.cost)).sum

/-- One row of the `sessions` table. -/
structure DBSessionRow where
  sdk_session_id : Option String
  created_at : ℕ
  last_activity : ℕ
  message_count : ℕ
  is_active : Bool
  deriving Repr, DecidableEq

/-- `CCSDKDatabase.createSession`: inserts with `message_count = 0` and
`is_active = 1`. -/
def createSessionRow (createdAt : ℕ) : DBSessionRow :=
  { sdk_session_id := none
    created_at := createdAt
    last_activity := createdAt
    message_count := 0
    is_active := true }

/-- The partial-update object accepted by `CCSDKDatabase.updateSession`;
`none` represents an absent (`undefined`) field that is not written. -/
structure SessionPatch where
  sdkSessionId : Option String := none
  lastActivity : Option ℕ := none
  messageCount : Option ℕ := none
  isActive : Option Bool := none
  deriving Repr, DecidableEq

/-- `CCSDKDatabase.updateSession`: applies exactly the fields present in
the patch. -/
def updateSession (row : DBSessionRow) (p : SessionPatch) : DBSessionRow :=
  { row with
    sdk_session_id := match p.sdkSessionId with
      | some v => some v
      | none => row.sdk_session_id
    last_activity := p.lastActivity.getD row.last_activity
    message_count := p.messageCount.getD row.message_count
    is_active := p.isActive.getD row.is_active }

/-! ## Wire frames and engine events -/

/-- Outbound WebSocket frames produced by the Session and the handler
(`§ broadcastToSubscribers`, `subscribe`, `onMessage`).  Only the fields
inspected by the verified properties are carried; `errorF`'s second
component is the optional `sessionId` field (absent on handler-level
errors, present on `broadcastError` frames). -/
inductive Frame where
  | sessionInfoF (id : String) (messageCount : ℕ) (isActive : Bool)
      (createdAt lastActivity : ℕ)
  | subscribed (sessionId : String)
  | unsubscribed (sessionId : String)
  | systemInfoF (sessionCount clientsCount : ℕ)
  | errorF (error : String) (sessionId : Option String)
  | assistantMessage (content : String) (sessionId : String)
  | toolUseF (toolName toolId : String) (sessionId : String)
  | toolResultF (toolUseId : String) (isError : Bool) (sessionId : String)
  | systemF (subtype : String) (sessionId : String)
  | resultF (success : Bool) (sessionId : String)
  | cancelling (sessionId message : String)
  | cancelledF (sessionId message : String)
  | userMessage (content : String) (sessionId : String)
  deriving Repr, DecidableEq

/-- Content blocks of an SDK `assistant` message whose `message.content`
is an array. -/
inductive ContentBlock where
  | text (t : String)
  | toolUse (name id : String)
  | toolResult (toolUseId : String) (isError : Bool)
  | otherBlock (ty : String)
  deriving Repr, DecidableEq

/-- Engine (Claude Code SDK) stream events as consumed by
`Session.addUserMessage` / `broadcastToSubscribers`.  `resultSuccess`
carries `message.result`, `message.total_cost_usd`, `message.duration_ms`
(the latter two may be `undefined`). -/
inductive EngineEvent where
  | systemInit (session_id : String)
  | systemOther (subtype : String)
  | assistantText (content : String)
  | assistantBlocks (blocks : List ContentBlock)
  | resultSuccess (result : String) (total_cost_usd : Option ℚ)
      (duration_ms : Option ℕ)
  | resultError (subtype : String)
  | userEcho (content : String)
  deriving Repr, DecidableEq

/-- How the `for await` iteration over the engine stream ends: normally, or
by the stream throwing after the listed events were consumed. -/
inductive StreamOutcome where
  | ok
  | err (message : String)
  deriving Repr, DecidableEq

/-! ## Session (`session.ts`) -/

/-- In-memory state of one `Session` object, together with its persisted
rows (`dbSession` is its row in `sessions`; `dbMessages` are the rows of
the `messages` table carrying this session's `session_id`, in insertion
order). `queryActive` models `queryPromise !== null` (equivalently, a
non-null `currentAbortController` during a turn). -/
structure SessionState where
  id : String
  messageCount : ℕ
  sdkSessionId : Option String
  subscribers : List String
  queryActive : Bool
  createdAt : ℕ
  lastActivity : ℕ
  dbMessages : List DBRow
  dbSession : DBSessionRow
  deriving Repr, DecidableEq

/-- JavaScript `Set.prototype.add`: append if absent (insertion order is
preserved and iteration follows it). -/
def setInsert (x : String) (l : List String) : List String :=
  if x ∈ l then l else l ++ [x]

/-- The `Session` constructor: fresh counters plus the
`db.createSession` insert. -/
def SessionState.mk0 (id : String) (now : ℕ) : SessionState :=
  { id := id
    messageCount := 0
    sdkSessionId := none
    subscribers := []
    queryActive := false
    createdAt := now
    lastActivity := now
    dbMessages := []
    dbSession := createSessionRow now }

/-- `Session.saveMessageToDB`: forwards to `createMessage` after its own
`subtype || undefined` / `content || undefined` coercions (absorbed by the
`jsOrNull*` coercions inside `createMessage`). -/
def saveMessageToDB (s : SessionState) (type : String)
    (subtype content : Option String) (now : ℕ)
    (cost : Option ℚ := none) (duration : Option ℕ := none) : SessionState :=
  { s with dbMessages :=
      s.dbMessages ++ [createMessage s.id type subtype content now cost duration] }

/-- One iteration of the `for (const block of content)` loop inside
`Session.broadcastToSubscribers`.  The source keeps a single `wsMessage`
variable across the loop and broadcasts it whenever it is non-null, so an
unrecognized block re-broadcasts the previous frame; the `Option Frame`
accumulator component reproduces that. -/
def blockStep (now : ℕ) (acc : SessionState × List Frame × Option Frame)
    (b : ContentBlock) : SessionState × List Frame × Option Frame :=
  let (st, fs, last) := acc
  let (st, wsMessage) :=
    match b with
    | ContentBlock.text t =>
        (saveMessageToDB st "assistant" (some "text") (some t) now,
          some (Frame.assistantMessage t st.id))
    | ContentBlock.toolUse name id =>
        (saveMessageToDB st "tool_use" (some name) none now,
          some (Frame.toolUseF name id st.id))
    | ContentBlock.toolResult tid isErr =>
        (saveMessageToDB st "tool_result"
            (some (if isErr then "error" else "success")) none now,
          some (Frame.toolResultF tid isErr st.id))
    | ContentBlock.otherBlock _ => (st, last)
  match wsMessage with
  | some f => (st, fs ++ [f], some f)
  | none => (st, fs, none)

/-- `Session.broadcastToSubscribers`: maps one engine event to wire
frames broadcast to every subscriber and to `saveMessageToDB` calls.
`user` echo events are broadcast but never persisted. -/
def broadcastToSubscribers (s : SessionState) (e : EngineEvent) (now : ℕ) :
    SessionState × List Frame :=
  match e with
  | .assistantText content =>
      (saveMessageToDB s "assistant" none (some content) now,
        [.assistantMessage content s.id])
  | .assistantBlocks blocks =>
      let (st, fs, _) := blocks.foldl (blockStep now) (s, [], none)
      (st, fs)
  | .resultSuccess result cost duration =>
      (saveMessageToDB s "result" (some "success") (some result) now cost duration,
        [.resultF true s.id])
  | .resultError subtype =>
      (saveMessageToDB s "result" (some subtype) none now,
        [.resultF false s.id])
  | .systemInit _ =>
      (saveMessageToDB s "system" (some "init") none now,
        [.systemF "init" s.id])
  | .systemOther subtype =>
      (saveMessageToDB s "system" (some subtype) none now,
        [.systemF subtype s.id])
  | .userEcho content =>
      (s, [.userMessage content s.id])

/-- One iteration of the `for await` loop in `addUserMessage`:
`broadcastToSubscribers(message)`, then the `system`/`init` capture of
the SDK session id (stored in memory and persisted via `updateSession`). -/
def streamStep (s : SessionState) (e : EngineEvent) (now : ℕ) :
    SessionState × List Frame :=
  let (s, fs) := broadcastToSubscribers s e now
  match e with
  | .systemInit sid =>
      ({ s with sdkSessionId := some sid
                dbSession := updateSession s.dbSession { sdkSessionId := some sid } },
        fs)
  | _ => (s, fs)

/-- Accumulating form of `streamStep` used to fold over the stream. -/
def runStreamStep (now : ℕ) (acc : SessionState × List Frame)
    (e : EngineEvent) : SessionState × List Frame :=
  let (st, fs) := streamStep acc.1 e now
  (st, acc.2 ++ fs)

/-- The whole `for await` iteration over the engine stream. -/
def runStream (s : SessionState) (events : List EngineEvent) (now : ℕ) :
    SessionState × List Frame :=
  events.foldl (runStreamStep now) (s, [])

/-- Result of one `addUserMessage` call: the final session state, the
frames broadcast to subscribers during the turn (in order), and the
`resume` token passed to `aiClient.queryStream`'s options (present iff
`this.sdkSessionId` was truthy at the time). -/
structure TurnResult where
  state : SessionState
  frames : List Frame
  resumeUsed : Option String
  deriving Repr, DecidableEq

/-- `Session.addUserMessage(content)` run to completion with the engine
stream yielding `events` and then finishing with `outcome` (the single
caller case: line 124 awaits the query promise, so the turn completes
before the call returns).  Steps, in source order: increment
`messageCount`, refresh `lastActivity`, persist the `user` row and the
session patch, allocate the abort controller, build `options` with
`resume` iff `this.sdkSessionId` is truthy, iterate the stream, handle a
thrown error (`abort`/`cancel` substring → `cancelled` frame, otherwise
`broadcastError("Query failed: " + message)`), and in `finally` clear the
abort controller and query promise and persist `is_active = false`. -/
def addUserMessage (s : SessionState) (content : String)
    (events : List EngineEvent) (outcome : StreamOutcome) (now : ℕ) : TurnResult :=
  let s1 : SessionState :=
    { s with messageCount := s.messageCount + 1, lastActivity := now }
  let s2 : SessionState :=
    { s1 with
      dbMessages := s1.dbMessages ++
        [createMessage s1.id "user" none (some content) now none none]
      dbSession := updateSession s1.dbSession
        { lastActivity := some now, messageCount := some s1.messageCount,
          isActive := some true }
      queryActive := true }
  let resumeUsed := if jsTruthyStr s2.sdkSessionId then s2.sdkSessionId else none
  let sr := runStream s2 events now
  let catchFrames : List Frame :=
    match outcome with
    | .ok => []
    | .err message =>
        if containsSubstr message "abort" || containsSubstr message "cancel" then
          [Frame.cancelledF sr.1.id "Query cancelled by user"]
        else
          [Frame.errorF ("Query failed: " ++ message) (some sr.1.id)]
  let s3 : SessionState :=
    { sr.1 with queryActive := false
                dbSession := updateSession sr.1.dbSession
                  { isActive := some false, lastActivity := some now } }
  { state := s3, frames := sr.2 ++ catchFrames, resumeUsed := resumeUsed }

/-- A WebSocket client as the handler sees it: its id plus the mutable
`ws.data.sessionId` string (initialized to `""`). -/
structure Client where
  id : String
  sessionId : String
  deriving Repr, DecidableEq

/-- `Session.subscribe(client)`: add to the subscriber set, set
`client.data.sessionId`, send a `session_info` snapshot to that client. -/
def subscribe (s : SessionState) (c : Client) :
    SessionState × Client × List Frame :=
  let s := { s with subscribers := setInsert c.id s.subscribers }
  let c := { c with sessionId := s.id }
  (s, c,
    [.sessionInfoF s.id s.messageCount s.queryActive s.createdAt s.lastActivity])

/-- `Session.unsubscribe(client)`: delete from the subscriber set. -/
def unsubscribe (s : SessionState) (c : Client) : SessionState :=
  { s with subscribers := s.subscribers.filter (· ≠ c.id) }

/-- `Session.broadcast(message)` delivery: the frame goes to every
current subscriber, in set-iteration (insertion) order. -/
def broadcastRecipients (s : SessionState) : List String :=
  s.subscribers

/-- `Session.cancel()`: when a query is in flight, abort it and broadcast
a `cancelling` frame, returning `true`; otherwise return `false`. -/
def cancel (s : SessionState) : SessionState × List Frame × Bool :=
  if s.queryActive then
    (s, [Frame.cancelling s.id "Cancelling current query..."], true)
  else
    (s, ([] : List Frame), false)

/-- `Session.cleanup()`: abort any in-flight query, close the queue,
clear the subscribers, persist `is_active = false`. -/
def cleanup (s : SessionState) (now : ℕ) : SessionState :=
  { s with subscribers := []
           queryActive := false
           dbSession := updateSession s.dbSession
             { isActive := some false, lastActivity := some now } }

/-- `Session.endConversation()`: abort any in-flight query, clear the SDK
session id, the query promise and the in-memory message counter, persist
`is_active = false`.  Persisted `messages` rows and the persisted
`message_count` column are untouched. -/
def endConversation (s : SessionState) (now : ℕ) : SessionState :=
  { s with sdkSessionId := none
           queryActive := false
           messageCount := 0
           dbSession := updateSession s.dbSession
             { isActive := some false, lastActivity := some now } }

/-! ## WebSocketHandler (`websocket-handler.ts`) -/

/-- The handler's `sessions: Map<string, Session>` as an association list
in insertion order (`Map.set` on a new key appends; on an existing key it
replaces in place). -/
abbrev Hub := List (String × SessionState)

/-- `this.sessions.get(sid)` (first binding wins, as in a `Map`). -/
def hubLookup : Hub → String → Option SessionState
  | [], _ => none
  | (k, v) :: t, sid => if k = sid then some v else hubLookup t sid

/-- `this.sessions.set(sid, s)`: replace the value in place when the key
is present, append when absent. -/
def hubUpdate (hub : Hub) (sid : String) (s : SessionState) : Hub :=
  if (hubLookup hub sid).isSome then
    hub.map (fun p => (p.1, if p.1 = sid then s else p.2))
  else
    hub ++ [(sid, s)]

/-- `this.sessions.delete(sid)`. -/
def hubErase (hub : Hub) (sid : String) : Hub :=
  hub.filter (fun p => p.1 ≠ sid)

/-- `WebSocketHandler.getOrCreateSession(sessionId?)`: return the existing
session when `sessionId` is truthy and present; otherwise create a
`Session` under `sessionId || generateSessionId()` (the generated id is
the `freshId` parameter) and register it.  Returns the updated map, the
resolved session and its id. -/
def getOrCreateSession (hub : Hub) (sessionId : Option String)
    (freshId : String) (now : ℕ) : Hub × SessionState × String :=
  if jsTruthyStr sessionId ∧ (hubLookup hub (sessionId.getD "")).isSome then
    (hub, (hubLookup hub (sessionId.getD "")).getD (SessionState.mk0 "" now),
      sessionId.getD "")
  else
    let newId := if jsTruthyStr sessionId then sessionId.getD "" else freshId
    let s := SessionState.mk0 newId now
    (hub ++ [(newId, s)], s, newId)

/-- Inbound command frames (`IncomingMessage` in `types.ts`): the union of
`ChatMessage`, `SubscribeMessage`, `UnsubscribeMessage`,
`SystemInfoMessage` and `CancelMessage`; `other` stands for any frame
whose `type` string matches none of the declared ones. -/
inductive Incoming where
  | chat (content : String) (sessionId : Option String) (newConversation : Bool)
  | subscribeMsg (sessionId : String)
  | unsubscribeMsg (sessionId : String)
  | systemInfoMsg
  | cancelMsg (sessionId : String)
  | other
  deriving Repr, DecidableEq

/-- One transport action performed by the handler: a frame sent to an
explicit recipient list (`ws.send` to the caller, or a `Session`
broadcast to its subscribers).  `onMessage` never calls `ws.close`, so a
close action needs no constructor beyond `closeConn`, which is included
so that "the connection stays open" is expressible. -/
inductive WireAct where
  | send (recipients : List String) (frame : Frame)
  | closeConn (clientId : String)
  deriving Repr, DecidableEq

/-- Result of `WebSocketHandler.onMessage`: updated session map, updated
caller (its `ws.data.sessionId`), and the transport actions in order. -/
structure HandlerResult where
  hub : Hub
  client : Client
  log : List WireAct
  deriving Repr, DecidableEq

/-- `WebSocketHandler.onMessage(ws, message)` on an already-parsed frame.
`freshId` feeds `generateSessionId()`; `events`/`outcome` are the engine
stream consumed when the frame starts a turn (`chat` case).  The `switch`
in the source has cases for `chat`, `subscribe`, `unsubscribe` and
`system_info` only; a `cancel` frame — although declared in
`IncomingMessage` — falls through to `default` and is answered with
`error "Unknown message type"`, like any unknown type. -/
def onMessage (hub : Hub) (c : Client) (clientsCount : ℕ) (msg : Incoming)
    (freshId : String) (events : List EngineEvent) (outcome : StreamOutcome)
    (now : ℕ) : HandlerResult :=
  match msg with
  | .chat content sessionId newConversation =>
      let g := getOrCreateSession hub sessionId freshId now
      let hub1 := g.1
      let session0 := g.2.1
      let sid := g.2.2
      let sub :=
        if c.sessionId = "" ∨ c.sessionId ≠ session0.id then
          let r := subscribe session0 c
          (r.1, r.2.1, r.2.2.map (fun f => WireAct.send [c.id] f))
        else
          (session0, c, ([] : List WireAct))
      let session1 := sub.1
      let c1 := sub.2.1
      let session2 :=
        if newConversation then endConversation session1 now else session1
      let tr := addUserMessage session2 content events outcome now
      { hub := hubUpdate hub1 sid tr.state, client := c1,
        log := sub.2.2 ++
          tr.frames.map (fun f => WireAct.send (broadcastRecipients tr.state) f) }
  | .subscribeMsg sessionId =>
      match hubLookup hub sessionId with
      | some session =>
          let hub1 :=
            if c.sessionId ≠ "" ∧ c.sessionId ≠ sessionId then
              match hubLookup hub c.sessionId with
              | some currentSession =>
                  hubUpdate hub c.sessionId (unsubscribe currentSession c)
              | none => hub
            else hub
          let r := subscribe session c
          { hub := hubUpdate hub1 sessionId r.1, client := r.2.1,
            log := r.2.2.map (fun f => WireAct.send [c.id] f) ++
              [WireAct.send [c.id] (Frame.subscribed sessionId)] }
      | none =>
          { hub := hub, client := c,
            log := [WireAct.send [c.id] (Frame.errorF "Session not found" none)] }
  | .unsubscribeMsg sessionId =>
      match hubLookup hub sessionId with
      | some session =>
          let hub := hubUpdate hub sessionId (unsubscribe session c)
          { hub := hub, client := { c with sessionId := "" },
            log := [WireAct.send [c.id] (Frame.unsubscribed sessionId)] }
      | none => { hub := hub, client := c, log := [] }
  | .systemInfoMsg =>
      { hub := hub, client := c,
        log := [WireAct.send [c.id] (Frame.systemInfoF hub.length clientsCount)] }
  | .cancelMsg _ =>
      -- No `case 'cancel'` exists in the source switch: the frame takes
      -- the `default` branch.
      { hub := hub, client := c,
        log := [WireAct.send [c.id] (Frame.errorF "Unknown message type" none)] }
  | .other =>
      { hub := hub, client := c,
        log := [WireAct.send [c.id] (Frame.errorF "Unknown message type" none)] }

/-- The scheduling half of `WebSocketHandler.cleanupEmptySessions`: the
ids for which a 60-second `setTimeout` is armed — every session with no
subscribers at scheduling time. -/
def cleanupEmptySessionsSchedule (hub : Hub) : List String :=
  (hub.filter (fun p => p.2.subscribers = [])).map (·.1)

/-- The timer body armed by `cleanupEmptySessions` for session `sid`,
firing after the 60 s grace period: re-check `hasSubscribers()`; when
still empty, run `session.cleanup()` and delete the map entry.  Returns
the updated map together with the session state `cleanup()` was invoked
on (when reclamation happened). -/
def cleanupTimerFire (hub : Hub) (sid : String) (now : ℕ) :
    Hub × Option SessionState :=
  match hubLookup hub sid with
  | some session =>
      if session.subscribers = [] then
        (hubErase hub sid, some (cleanup session now))
      else
        (hub, none)
  | none => (hub, none)

/-! ## Derived definitions used by the verification -/

/-- Number of rows of a given `type` among a list of message rows. -/
def countType (ty : String) (rows : List DBRow) : ℕ :=
  (rows.filter (fun r => r.type = ty)).length

/-- The session-state fields that iterating the engine stream never
touches: identity, the user-message counter (in memory and persisted),
the subscriber set, the busy flag, and the number of persisted rows of
type `user` and of type `error`. -/
def StreamPreserves (s s' : SessionState) : Prop :=
  s'.id = s.id ∧ s'.messageCount = s.messageCount ∧
  s'.subscribers = s.subscribers ∧ s'.queryActive = s.queryActive ∧
  s'.dbSession.message_count = s.dbSession.message_count ∧
  countType "user" s'.dbMessages = countType "user" s.dbMessages ∧
  countType "error" s'.dbMessages = countType "error" s.dbMessages

/-! ## Event-loop interleaving semantics for concurrent `addUserMessage`

JavaScript tasks run synchronous segments to completion and interleave
only at `await` points.  `addUserMessage` has exactly two suspension
points: `await this.queryPromise` on entry when a turn is busy (the
check is an `if`, executed once), and `await this.queryPromise` at the
end for the caller's own turn.  Each concurrent caller is a task moving
through the phases below; a turn is identified by a fresh number. -/

/-- Phase of one `addUserMessage` caller:
`entry` — about to run the `if (this.queryPromise)` check;
`waiting t` — suspended on `await this.queryPromise` where the promise
  belongs to turn `t`;
`streaming t` — its own turn `t` is in flight (the async body from the
  `queryStream` call up to the `finally` block);
`taskDone` — the call returned. -/
inductive Phase where
  | entry
  | waiting (t : ℕ)
  | streaming (t : ℕ)
  | taskDone
  deriving Repr, DecidableEq

/-- Global state: the caller tasks, `this.queryPromise` (`some t` while
the promise of turn `t` is stored, `none` after a `finally` nulled it),
the set of turns whose promise has resolved, and the fresh-turn counter. -/
structure CState where
  tasks : List Phase
  current : Option ℕ
  finished : List ℕ
  next : ℕ
  deriving Repr, DecidableEq

/-- The synchronous segment from the `messageCount` increment through the
assignment `this.queryPromise = (async () => …)()`: the caller starts its
own turn unconditionally (no re-check of the busy flag). -/
def startTurn (s : CState) (i : ℕ) : CState :=
  { s with tasks := s.tasks.set i (Phase.streaming s.next)
           current := some s.next
           next := s.next + 1 }

/-- Enabled transitions of task `i`:
* `entry` with a stored promise → record it and suspend (`if` branch);
* `entry` with no stored promise → start a turn at once;
* `waiting t` once turn `t` resolved → resume past the single `await`
  and start a turn without re-checking;
* `streaming t` → the turn's body finishes: the `finally` block nulls
  `this.queryPromise` and the promise of turn `t` resolves. -/
def succsAt (s : CState) (i : ℕ) : List CState :=
  match s.tasks.get? i with
  | some Phase.entry =>
      match s.current with
      | some t => [{ s with tasks := s.tasks.set i (Phase.waiting t) }]
      | none => [startTurn s i]
  | some (Phase.waiting t) =>
      if t ∈ s.finished then [startTurn s i] else []
  | some (Phase.streaming t) =>
      [{ s with tasks := s.tasks.set i Phase.taskDone
                current := none
                finished := t :: s.finished }]
  | _ => []

/-- All one-step successors of a state. -/
def succs (s : CState) : List CState :=
  (List.range s.tasks.length).flatMap (succsAt s)

/-- Reachability under the interleaving semantics. -/
inductive ReachableFrom (init : CState) : CState → Prop where
  | refl : ReachableFrom init init
  | step {s s' : CState} : ReachableFrom init s → s' ∈ succs s →
      ReachableFrom init s'

/-- Number of engine streams currently in flight. -/
def streamCount (l : List Phase) : ℕ :=
  (l.filter (fun p => match p with | Phase.streaming _ => true | _ => false)).length

/-- Two concurrent `addUserMessage` callers on one fresh session. -/
def init2 : CState :=
  { tasks := [Phase.entry, Phase.entry], current := none, finished := [], next := 0 }

/-- Three concurrent `addUserMessage` callers on one fresh session. -/
def init3 : CState :=
  { tasks := [Phase.entry, Phase.entry, Phase.entry], current := none,
    finished := [], next := 0 }

/-- One widening step of the reachable-set exploration. -/
def closeOnce (l : List CState) : List CState :=
  (l ++ l.flatMap succs).dedup

/-- Iterated widening. -/
def closeN : ℕ → List CState → List CState
  | 0, l => l
  | n + 1, l => closeN n (closeOnce l)

/-- The reachable states of the two-caller system (closed under `succs`,
as certified below). -/
def reach2 : List CState := closeN 12 [init2]


/-! ## Concrete instances used by counterexamples and witnesses -/

/-- A fresh session `X`, as built by the `Session` constructor. -/
def c1Session : SessionState := SessionState.mk0 "X" 0

/-- One full turn on the fresh session: the prompt `"hi"` followed by a
stream consisting of a single successful `result` event. -/
def c1Turn : TurnResult :=
  addUserMessage c1Session "hi" [EngineEvent.resultSuccess "ok" none none]
    StreamOutcome.ok 1

/-- A session with a query in flight and one subscriber. -/
def c2Session : SessionState :=
  { SessionState.mk0 "s1" 0 with queryActive := true, subscribers := ["c0"] }

/-- The handler map holding only `c2Session`. -/
def c2Hub : Hub := [("s1", c2Session)]

/-- The client that sends the `cancel` frame, subscribed to `s1`. -/
def c2Client : Client := ⟨"c0", "s1"⟩

/-- Session `A` with client `c0` subscribed. -/
def c3SessionA : SessionState :=
  { SessionState.mk0 "A" 0 with subscribers := ["c0"] }

/-- Session `B` with no subscribers. -/
def c3SessionB : SessionState := SessionState.mk0 "B" 0

/-- The handler map holding sessions `A` and `B`. -/
def c3Hub : Hub := [("A", c3SessionA), ("B", c3SessionB)]

/-- Client `c0`, currently subscribed to session `A`. -/
def c3Client : Client := ⟨"c0", "A"⟩

/-- The handler state after `c0` sends `chat{content:"hi", sessionId:"B"}`. -/
def c3Result : HandlerResult :=
  onMessage c3Hub c3Client 1 (Incoming.chat "hi" (some "B") false) "fresh"
    [] StreamOutcome.ok 2

/-- A session with no subscribers whose turn is still in flight. -/
def c4Session : SessionState :=
  { SessionState.mk0 "Y" 0 with queryActive := true }

/-- The handler map holding only `c4Session`. -/
def c4Hub : Hub := [("Y", c4Session)]

/-- A session used to witness the no-reclamation direction: one
subscriber, idle. -/
def c4wSession : SessionState :=
  { SessionState.mk0 "Z" 0 with subscribers := ["c"] }

/-- A turn whose engine stream throws `"boom"` before yielding any event. -/
def c5Turn : TurnResult :=
  addUserMessage (SessionState.mk0 "X" 0) "q" [] (StreamOutcome.err "boom") 3

/-- A session whose stored SDK session id is the empty string — non-null
but falsy in JavaScript. -/
def c9Session : SessionState :=
  { SessionState.mk0 "X" 0 with sdkSessionId := some "" }

/-- Interleaving trace for three concurrent callers: caller 0 starts the
first turn. -/
def c6s1 : CState :=
  ⟨[Phase.streaming 0, Phase.entry, Phase.entry], some 0, [], 1⟩

/-- Caller 1 finds `queryPromise` set and suspends on it. -/
def c6s2 : CState :=
  ⟨[Phase.streaming 0, Phase.waiting 0, Phase.entry], some 0, [], 1⟩

/-- Caller 2 likewise suspends on the same promise. -/
def c6s3 : CState :=
  ⟨[Phase.streaming 0, Phase.waiting 0, Phase.waiting 0], some 0, [], 1⟩

/-- Turn 0 completes; its `finally` nulls `queryPromise` and resolves the
promise both waiters follow. -/
def c6s4 : CState :=
  ⟨[Phase.taskDone, Phase.waiting 0, Phase.waiting 0], none, [0], 1⟩

/-- Caller 1 resumes past its single `await` and starts turn 1. -/
def c6s5 : CState :=
  ⟨[Phase.taskDone, Phase.streaming 1, Phase.waiting 0], some 1, [0], 2⟩

/-- Caller 2 resumes as well — without re-checking — and starts turn 2
while turn 1 still streams. -/
def c6Bad : CState :=
  ⟨[Phase.taskDone, Phase.streaming 1, Phase.streaming 2], some 2, [0], 3⟩

/-! ## Helper lemmas -/

theorem countType_append (ty : String) (xs ys : List DBRow) :
    countType ty (xs ++ ys) = countType ty xs + countType ty ys := by
  simp [countType, List.filter_append]

theorem streamPreserves_refl (s : SessionState) : StreamPreserves s s :=
  ⟨rfl, rfl, rfl, rfl, rfl, rfl, rfl⟩

theorem streamPreserves_trans {a b c : SessionState}
    (h1 : StreamPreserves a b) (h2 : StreamPreserves b c) :
    StreamPreserves a c := by
  obtain ⟨x1, x2, x3, x4, x5, x6, x7⟩ := h1
  obtain ⟨y1, y2, y3, y4, y5, y6, y7⟩ := h2
  exact ⟨y1.trans x1, y2.trans x2, y3.trans x3, y4.trans x4,
    y5.trans x5, y6.trans x6, y7.trans x7⟩

theorem saveMessageToDB_preserves (s : SessionState) (ty : String)
    (sub con : Option String) (now : ℕ) (cost : Option ℚ) (dur : Option ℕ)
    (h1 : ty ≠ "user") (h2 : ty ≠ "error") :
    StreamPreserves s (saveMessageToDB s ty sub con now cost dur) := by
  refine ⟨rfl, rfl, rfl, rfl, rfl, ?_, ?_⟩ <;>
    simp [saveMessageToDB, countType, createMessage, List.filter_append, h1, h2]

theorem blockStep_preserves (now : ℕ)
    (acc : SessionState × List Frame × Option Frame) (b : ContentBlock) :
    StreamPreserves acc.1 (blockStep now acc b).1 := by
  obtain ⟨st, fs, last⟩ := acc
  cases b with
  | text t =>
      exact saveMessageToDB_preserves st "assistant" (some "text") (some t)
        now none none (by decide) (by decide)
  | toolUse name id =>
      exact saveMessageToDB_preserves st "tool_use" (some name) none
        now none none (by decide) (by decide)
  | toolResult tid isErr =>
      exact saveMessageToDB_preserves st "tool_result"
        (some (if isErr then "error" else "success")) none
        now none none (by decide) (by decide)
  | otherBlock ty =>
      cases last with
      | none => exact streamPreserves_refl st
      | some f => exact streamPreserves_refl st

theorem blocksFold_preserves (now : ℕ) (blocks : List ContentBlock) :
    ∀ acc : SessionState × List Frame × Option Frame,
      StreamPreserves acc.1 (blocks.foldl (blockStep now) acc).1 := by
  induction blocks with
  | nil => intro acc; exact streamPreserves_refl acc.1
  | cons b bs ih =>
      intro acc
      rw [List.foldl_cons]
      exact streamPreserves_trans (blockStep_preserves now acc b)
        (ih (blockStep now acc b))

theorem broadcastToSubscribers_preserves (s : SessionState) (e : EngineEvent)
    (now : ℕ) : StreamPreserves s (broadcastToSubscribers s e now).1 := by
  cases e with
  | systemInit sid =>
      exact saveMessageToDB_preserves s "system" (some "init") none now
        none none (by decide) (by decide)
  | systemOther sub =>
      exact saveMessageToDB_preserves s "system" (some sub) none now
        none none (by decide) (by decide)
  | assistantText content =>
      exact saveMessageToDB_preserves s "assistant" none (some content) now
        none none (by decide) (by decide)
  | assistantBlocks blocks =>
      exact blocksFold_preserves now blocks (s, [], none)
  | resultSuccess result cost dur =>
      exact saveMessageToDB_preserves s "result" (some "success") (some result)
        now cost dur (by decide) (by decide)
  | resultError sub =>
      exact saveMessageToDB_preserves s "result" (some sub) none now
        none none (by decide) (by decide)
  | userEcho content => exact streamPreserves_refl s

theorem streamStep_preserves (s : SessionState) (e : EngineEvent) (now : ℕ) :
    StreamPreserves s (streamStep s e now).1 := by
  have hb := broadcastToSubscribers_preserves s e now
  cases e with
  | systemInit sid =>
      obtain ⟨x1, x2, x3, x4, x5, x6, x7⟩ := hb
      exact ⟨x1, x2, x3, x4, by simpa [streamStep, updateSession] using x5,
        x6, x7⟩
  | systemOther sub => exact hb
  | assistantText content => exact hb
  | assistantBlocks blocks => exact hb
  | resultSuccess result cost dur => exact hb
  | resultError sub => exact hb
  | userEcho content => exact hb

theorem runStream_foldl_preserves (now : ℕ) (events : List EngineEvent) :
    ∀ acc : SessionState × List Frame,
      StreamPreserves acc.1 (events.foldl (runStreamStep now) acc).1 := by
  induction events with
  | nil => intro acc; exact streamPreserves_refl acc.1
  | cons e es ih =>
      intro acc
      rw [List.foldl_cons]
      refine streamPreserves_trans ?_ (ih (runStreamStep now acc e))
      exact streamStep_preserves acc.1 e now

theorem runStream_preserves (s : SessionState) (events : List EngineEvent)
    (now : ℕ) : StreamPreserves s (runStream s events now).1 :=
  runStream_foldl_preserves now events (s, [])

theorem setInsert_idem (x : String) (l : List String) :
    setInsert x (setInsert x l) = setInsert x l := by
  by_cases h : x ∈ l <;> simp [setInsert, h]

theorem mem_setInsert_self (x : String) (l : List String) :
    x ∈ setInsert x l := by
  by_cases h : x ∈ l <;> simp [setInsert, h]

theorem addUserMessage_subscribers (s : SessionState) (content : String)
    (events : List EngineEvent) (outcome : StreamOutcome) (now : ℕ) :
    (addUserMessage s content events outcome now).state.subscribers
      = s.subscribers := by
  simp only [addUserMessage]
  exact ((runStream_preserves _ events now).2.2.1).trans rfl

theorem addUserMessage_messageCount (s : SessionState) (content : String)
    (events : List EngineEvent) (outcome : StreamOutcome) (now : ℕ) :
    (addUserMessage s content events outcome now).state.messageCount
      = s.messageCount + 1 := by
  simp only [addUserMessage]
  exact ((runStream_preserves _ events now).2.1).trans rfl

theorem addUserMessage_db_message_count (s : SessionState) (content : String)
    (events : List EngineEvent) (outcome : StreamOutcome) (now : ℕ) :
    (addUserMessage s content events outcome now).state.dbSession.message_count
      = s.messageCount + 1 := by
  simp only [addUserMessage]
  rw [show ∀ (r : DBSessionRow) (a : Option ℕ) (b : Option Bool),
      (updateSession r { lastActivity := a, isActive := b }).message_count
        = r.message_count from fun r a b => rfl]
  rw [(runStream_preserves _ events now).2.2.2.2.1]
  rfl

theorem addUserMessage_user_rows (s : SessionState) (content : String)
    (events : List EngineEvent) (outcome : StreamOutcome) (now : ℕ) :
    countType "user" (addUserMessage s content events outcome now).state.dbMessages
      = countType "user" s.dbMessages + 1 := by
  simp only [addUserMessage]
  rw [(runStream_preserves _ events now).2.2.2.2.2.1]
  simp [countType_append, countType, createMessage]

theorem addUserMessage_error_rows (s : SessionState) (content : String)
    (events : List EngineEvent) (outcome : StreamOutcome) (now : ℕ) :
    countType "error" (addUserMessage s content events outcome now).state.dbMessages
      = countType "error" s.dbMessages := by
  simp only [addUserMessage]
  rw [(runStream_preserves _ events now).2.2.2.2.2.2]
  simp [countType_append, countType, createMessage]

theorem addUserMessage_idle_after (s : SessionState) (content : String)
    (events : List EngineEvent) (outcome : StreamOutcome) (now : ℕ) :
    (addUserMessage s content events outcome now).state.queryActive = false ∧
    (addUserMessage s content events outcome now).state.dbSession.is_active
      = false := by
  refine ⟨rfl, ?_⟩
  simp [addUserMessage, updateSession]

theorem addUserMessage_id (s : SessionState) (content : String)
    (events : List EngineEvent) (outcome : StreamOutcome) (now : ℕ) :
    (addUserMessage s content events outcome now).state.id = s.id := by
  simp only [addUserMessage]
  exact ((runStream_preserves _ events now).1).trans rfl

theorem addUserMessage_resumeUsed (s : SessionState) (content : String)
    (events : List EngineEvent) (outcome : StreamOutcome) (now : ℕ) :
    (addUserMessage s content events outcome now).resumeUsed
      = match s.sdkSessionId with
        | some t => if t = "" then none else some t
        | none => none := by
  simp only [addUserMessage]
  cases h : s.sdkSessionId with
  | none => simp [jsTruthyStr, h]
  | some t => by_cases ht : t = "" <;> simp [jsTruthyStr, h, ht]

theorem addUserMessage_error_terminal (s : SessionState) (content : String)
    (events : List EngineEvent) (message : String) (now : ℕ)
    (h1 : containsSubstr message "abort" = false)
    (h2 : containsSubstr message "cancel" = false) :
    (addUserMessage s content events (StreamOutcome.err message) now).frames.getLast?
      = some (Frame.errorF ("Query failed: " ++ message) (some s.id)) := by
  simp only [addUserMessage, h1, h2]
  rw [(runStream_preserves _ events now).1]
  simp

theorem endConversation_fields (s : SessionState) (now : ℕ) :
    (endConversation s now).sdkSessionId = none ∧
    (endConversation s now).messageCount = 0 ∧
    (endConversation s now).dbMessages = s.dbMessages :=
  ⟨rfl, rfl, rfl⟩

theorem addUserMessage_init_capture (s : SessionState) (content sid : String)
    (now : ℕ) :
    (addUserMessage s content [EngineEvent.systemInit sid]
        StreamOutcome.ok now).state.sdkSessionId = some sid := by
  simp [addUserMessage, runStream, runStreamStep, streamStep,
    broadcastToSubscribers]

/-! ## Helper lemmas about the handler's session map -/

theorem hubLookup_map_replace_self (hub : Hub) (sid : String) (s : SessionState) :
    hubLookup (hub.map (fun p => (p.1, if p.1 = sid then s else p.2))) sid
      = if (hubLookup hub sid).isSome then some s else none := by
  induction hub with
  | nil => simp [hubLookup]
  | cons p t ih =>
      obtain ⟨k, v⟩ := p
      by_cases h : k = sid <;> simp [hubLookup, h, ih]

theorem hubLookup_map_replace_ne (hub : Hub) (sid sid' : String)
    (s : SessionState) (h : sid' ≠ sid) :
    hubLookup (hub.map (fun p => (p.1, if p.1 = sid then s else p.2))) sid'
      = hubLookup hub sid' := by
  induction hub with
  | nil => simp [hubLookup]
  | cons p t ih =>
      obtain ⟨k, v⟩ := p
      by_cases hk : k = sid'
      · simp [hubLookup, hk, h, ih]
      · simp [hubLookup, hk, ih]

theorem hubLookup_append_one_self (hub : Hub) (sid : String) (s : SessionState)
    (h : hubLookup hub sid = none) :
    hubLookup (hub ++ [(sid, s)]) sid = some s := by
  induction hub with
  | nil => simp [hubLookup]
  | cons p t ih =>
      obtain ⟨k, v⟩ := p
      by_cases hk : k = sid
      · simp [hubLookup, hk] at h
      · simp only [List.cons_append, hubLookup, if_neg hk] at h ⊢
        exact ih h

theorem hubLookup_append_one_ne (hub : Hub) (sid sid' : String)
    (s : SessionState) (h : sid' ≠ sid) :
    hubLookup (hub ++ [(sid, s)]) sid' = hubLookup hub sid' := by
  induction hub with
  | nil =>
      have hns : ¬ (sid = sid') := fun hh => h hh.symm
      simp [hubLookup, hns]
  | cons p t ih =>
      obtain ⟨k, v⟩ := p
      by_cases hk : k = sid' <;> simp [hubLookup, hk, ih]

theorem hubLookup_hubUpdate_self (hub : Hub) (sid : String) (s : SessionState)
    (h : (hubLookup hub sid).isSome) :
    hubLookup (hubUpdate hub sid s) sid = some s := by
  unfold hubUpdate
  rw [if_pos h, hubLookup_map_replace_self, if_pos h]

theorem hubLookup_hubUpdate_ne (hub : Hub) (sid sid' : String)
    (s : SessionState) (h : sid' ≠ sid) :
    hubLookup (hubUpdate hub sid s) sid' = hubLookup hub sid' := by
  unfold hubUpdate
  split
  · exact hubLookup_map_replace_ne hub sid sid' s h
  · exact hubLookup_append_one_ne hub sid sid' s h

theorem hubLookup_hubErase_self (hub : Hub) (sid : String) :
    hubLookup (hubErase hub sid) sid = none := by
  induction hub with
  | nil => simp [hubLookup, hubErase]
  | cons p t ih =>
      obtain ⟨k, v⟩ := p
      by_cases hk : k = sid <;>
        simpa [hubErase, List.filter_cons, hk, hubLookup] using ih


theorem reach2_closed : ∀ s ∈ reach2, ∀ t ∈ succs s, t ∈ reach2 := by decide

theorem reach2_sound : ∀ s ∈ reach2, streamCount s.tasks ≤ 1 := by decide

theorem init2_mem_reach2 : init2 ∈ reach2 := by decide

theorem reachable2_mem_reach2 : ∀ s, ReachableFrom init2 s → s ∈ reach2 := by
  intro s h
  induction h with
  | refl => exact init2_mem_reach2
  | step hr hmem ih => exact reach2_closed _ ih _ hmem

/-! ## Claim theorems -/

/-- C1 (counterexample): after one completed turn on a fresh session
(the prompt plus a single successful `result` event), the in-memory
`messageCount` and the persisted `message_count` are both `1` while the
`messages` table holds `2` rows for the session — the invariant
"`message_count` equals the number of rows in `messages` with this
`session_id`" is false. -/
theorem message_count_drifts_from_rows :
    c1Turn.state.messageCount = 1 ∧
    c1Turn.state.dbSession.message_count = 1 ∧
    c1Turn.state.dbMessages.length = 2 ∧
    c1Turn.state.messageCount ≠ c1Turn.state.dbMessages.length := by decide

/-- C1 (amended): `addUserMessage` increments the in-memory counter and
the persisted `message_count` by exactly one and appends exactly one
`user`-typed row; the event rows persisted while streaming
(assistant/tool/system/result) never increment the counter; and
`endConversation` resets the in-memory counter to zero while leaving the
persisted rows untouched.  Hence `message_count` counts accepted user
prompts, not rows of the `messages` table. -/
theorem message_count_counts_user_prompts :
    ∀ (s : SessionState) (content : String) (events : List EngineEvent)
      (outcome : StreamOutcome) (now now' : ℕ),
      (addUserMessage s content events outcome now).state.messageCount
        = s.messageCount + 1 ∧
      (addUserMessage s content events outcome now).state.dbSession.message_count
        = s.messageCount + 1 ∧
      countType "user" (addUserMessage s content events outcome now).state.dbMessages
        = countType "user" s.dbMessages + 1 ∧
      (endConversation s now').messageCount = 0 ∧
      (endConversation s now').dbMessages = s.dbMessages :=
  fun s content events outcome now _ =>
    ⟨addUserMessage_messageCount s content events outcome now,
     addUserMessage_db_message_count s content events outcome now,
     addUserMessage_user_rows s content events outcome now,
     rfl, rfl⟩

/-- C2 (code bug): an inbound `cancel` frame naming a session with a
query in flight is answered with `error "Unknown message type"` — the
`switch` in `onMessage` has no `cancel` case, although `CancelMessage`
is part of the declared `IncomingMessage` union and `Session.cancel`
exists (and, had it been called, would have returned `true` and
broadcast a `cancelling` frame, as the last two conjuncts show).  The
session map is left untouched and `cancel()` is never invoked. -/
theorem cancel_frame_rejected_as_unknown :
    onMessage c2Hub c2Client 1 (Incoming.cancelMsg "s1") "fresh" []
        StreamOutcome.ok 5
      = { hub := c2Hub, client := c2Client,
          log := [WireAct.send ["c0"] (Frame.errorF "Unknown message type" none)] } ∧
    (cancel c2Session).2.2 = true ∧
    (cancel c2Session).2.1
      = [Frame.cancelling "s1" "Cancelling current query..."] := by decide

/-- C3 (counterexample): client `c0`, subscribed to session `A`, sends
`chat{sessionId:"B"}`; afterwards `c0` is in the subscriber sets of both
`A` and `B` — the chat auto-subscribe path never unsubscribes the prior
session, so "a client is a member of at most one session's subscriber
set" is false. -/
theorem chat_autosubscribe_keeps_prior_subscription :
    (hubLookup c3Result.hub "A").map (·.subscribers) = some ["c0"] ∧
    (hubLookup c3Result.hub "B").map (·.subscribers) = some ["c0"] ∧
    c3Result.client.sessionId = "B" := by decide

/-- C3 (amended): a `subscribe` frame that switches a client to a
different existing session removes the client from the prior session's
subscriber set when it adds it to the new one; a `chat` frame naming a
different existing session adds the client to the new session's set but
leaves it in the prior session's set, so after a chat-switch the client
is in two subscriber sets at once. -/
theorem subscription_switch_semantics :
    ∀ (hub : Hub) (c : Client) (n : ℕ) (sid content freshId : String)
      (events : List EngineEvent) (outcome : StreamOutcome) (now : ℕ)
      (sOld sNew : SessionState),
      hubLookup hub c.sessionId = some sOld →
      hubLookup hub sid = some sNew →
      c.sessionId ≠ "" →
      c.sessionId ≠ sid →
      sid ≠ "" →
      sNew.id = sid →
      c.id ∈ sOld.subscribers →
      ((hubLookup (onMessage hub c n (Incoming.subscribeMsg sid) freshId
            events outcome now).hub c.sessionId = some (unsubscribe sOld c) ∧
        c.id ∉ (unsubscribe sOld c).subscribers ∧
        hubLookup (onMessage hub c n (Incoming.subscribeMsg sid) freshId
            events outcome now).hub sid = some (subscribe sNew c).1 ∧
        c.id ∈ (subscribe sNew c).1.subscribers) ∧
       (hubLookup (onMessage hub c n (Incoming.chat content (some sid) false)
            freshId events outcome now).hub c.sessionId = some sOld ∧
        (∀ s', hubLookup (onMessage hub c n (Incoming.chat content (some sid) false)
            freshId events outcome now).hub sid = some s' →
          c.id ∈ s'.subscribers))) := by
  intro hub c n sid content freshId events outcome now sOld sNew
  intro hOld hNew hcne hcnsid hsidne hNewId hmem
  have hcs : c.sessionId ≠ "" ∧ c.sessionId ≠ sid := ⟨hcne, hcnsid⟩
  constructor
  · simp only [onMessage, hNew, if_pos hcs, hOld]
    refine ⟨?_, ?_, ?_, ?_⟩
    · rw [hubLookup_hubUpdate_ne _ sid c.sessionId _ hcnsid]
      rw [hubLookup_hubUpdate_self _ _ _ (by rw [hOld]; rfl)]
    · simp [unsubscribe]
    · rw [hubLookup_hubUpdate_self]
      rw [hubLookup_hubUpdate_ne _ c.sessionId sid _ (fun hh => hcnsid hh.symm),
        hNew]
      rfl
    · simpa [subscribe] using mem_setInsert_self c.id sNew.subscribers
  · have hget : getOrCreateSession hub (some sid) freshId now
        = (hub, sNew, sid) := by
      simp only [getOrCreateSession]
      rw [if_pos]
      · simp [hNew]
      · exact ⟨by simp [jsTruthyStr, hsidne], by simp [hNew]⟩
    simp only [onMessage, hget]
    have hOr : c.sessionId = "" ∨ c.sessionId ≠ sNew.id :=
      Or.inr (by rw [hNewId]; exact hcnsid)
    simp only [if_pos hOr, Bool.false_eq_true,
      if_neg (by decide : ¬ (false = true))]
    constructor
    · rw [hubLookup_hubUpdate_ne _ sid c.sessionId _ hcnsid]
      exact hOld
    · intro s' hs'
      rw [hubLookup_hubUpdate_self _ _ _ (by rw [hNew]; rfl)] at hs'
      cases hs'
      rw [addUserMessage_subscribers]
      simpa [subscribe] using mem_setInsert_self c.id sNew.subscribers

/-- C3 (witness): the amended theorem applied to the two-session map
`c3Hub` with client `c0` subscribed to `A` and switching to `B`. -/
theorem subscription_switch_semantics_witness :
    hubLookup c3Hub c3Client.sessionId = some c3SessionA ∧
    hubLookup c3Hub "B" = some c3SessionB ∧
    c3Client.id ∈ c3SessionA.subscribers ∧
    ((hubLookup (onMessage c3Hub c3Client 1 (Incoming.subscribeMsg "B") "fresh"
          [] StreamOutcome.ok 2).hub c3Client.sessionId
        = some (unsubscribe c3SessionA c3Client) ∧
      c3Client.id ∉ (unsubscribe c3SessionA c3Client).subscribers ∧
      hubLookup (onMessage c3Hub c3Client 1 (Incoming.subscribeMsg "B") "fresh"
          [] StreamOutcome.ok 2).hub "B" = some (subscribe c3SessionB c3Client).1 ∧
      c3Client.id ∈ (subscribe c3SessionB c3Client).1.subscribers) ∧
     (hubLookup (onMessage c3Hub c3Client 1 (Incoming.chat "hi" (some "B") false)
          "fresh" [] StreamOutcome.ok 2).hub c3Client.sessionId = some c3SessionA ∧
      (∀ s', hubLookup (onMessage c3Hub c3Client 1 (Incoming.chat "hi" (some "B") false)
          "fresh" [] StreamOutcome.ok 2).hub "B" = some s' →
        c3Client.id ∈ s'.subscribers))) :=
  ⟨by decide, by decide, by decide,
    subscription_switch_semantics c3Hub c3Client 1 "B" "hi" "fresh" []
      StreamOutcome.ok 2 c3SessionA c3SessionB (by decide) (by decide)
      (by decide) (by decide) (by decide) (by decide) (by decide)⟩

/-- C4 (counterexample): session `Y` has no subscribers but its turn is
still in flight (`queryActive = true`); `cleanupEmptySessions` arms the
timer for it and the timer body reclaims it anyway — `cleanup()` is
invoked and the session is removed even though a turn is running, so
"reclaimed only if no subscribers AND no in-flight turn" is false. -/
theorem reclaim_ignores_inflight_turn :
    c4Session.queryActive = true ∧
    c4Session.subscribers = [] ∧
    cleanupEmptySessionsSchedule c4Hub = ["Y"] ∧
    (cleanupTimerFire c4Hub "Y" 60).2.isSome = true ∧
    hubLookup (cleanupTimerFire c4Hub "Y" 60).1 "Y" = none := by decide

/-- C4 (amended): the grace-period timer reclaims a registered session
iff it has no subscribers when the timer fires, irrespective of any
in-flight turn (`cleanup()` itself aborts such a turn); a re-subscription
during the grace window (subscriber set non-empty at expiry) cancels the
reclamation; and the timer is armed exactly for the sessions having no
subscribers at scheduling time. -/
theorem reclaim_requires_no_subscribers :
    ∀ (hub : Hub) (sid : String) (now : ℕ) (s : SessionState),
      hubLookup hub sid = some s →
      ((s.subscribers ≠ [] → cleanupTimerFire hub sid now = (hub, none)) ∧
       (s.subscribers = [] →
         cleanupTimerFire hub sid now
           = (hubErase hub sid, some (cleanup s now)) ∧
         hubLookup (cleanupTimerFire hub sid now).1 sid = none)) ∧
      (sid ∈ cleanupEmptySessionsSchedule hub ↔
        ∃ s', (sid, s') ∈ hub ∧ s'.subscribers = []) := by
  intro hub sid now s hs
  constructor
  · constructor
    · intro hne
      simp only [cleanupTimerFire, hs, if_neg hne]
    · intro hemp
      refine ⟨?_, ?_⟩ <;>
        simp [cleanupTimerFire, hs, hemp, hubLookup_hubErase_self]
  · simp only [cleanupEmptySessionsSchedule, List.mem_map, List.mem_filter]
    constructor
    · rintro ⟨⟨k, v⟩, ⟨hmem, hsub⟩, rfl⟩
      exact ⟨v, hmem, by simpa using hsub⟩
    · rintro ⟨s', hmem, hsub⟩
      exact ⟨(sid, s'), ⟨hmem, by simpa using hsub⟩, rfl⟩

/-- C4 (witness): the amended theorem applied to a one-session map whose
session keeps a subscriber, so the timer leaves everything in place. -/
theorem reclaim_requires_no_subscribers_witness :
    hubLookup [("Z", c4wSession)] "Z" = some c4wSession ∧
    (((c4wSession.subscribers ≠ [] →
        cleanupTimerFire [("Z", c4wSession)] "Z" 7 = ([("Z", c4wSession)], none)) ∧
      (c4wSession.subscribers = [] →
        cleanupTimerFire [("Z", c4wSession)] "Z" 7
          = (hubErase [("Z", c4wSession)] "Z", some (cleanup c4wSession 7)) ∧
        hubLookup (cleanupTimerFire [("Z", c4wSession)] "Z" 7).1 "Z" = none)) ∧
     ("Z" ∈ cleanupEmptySessionsSchedule [("Z", c4wSession)] ↔
       ∃ s', ("Z", s') ∈ ([("Z", c4wSession)] : Hub) ∧ s'.subscribers = [])) :=
  ⟨by decide,
    reclaim_requires_no_subscribers [("Z", c4wSession)] "Z" 7 c4wSession
      (by decide)⟩

/-- C5 (counterexample): a turn whose engine stream throws `"boom"`
broadcasts the terminal error frame and returns to idle, but the only
row persisted for the turn is the `user` row — no `error`-typed row is
written, so "persists an error-typed row in the messages table" is
false. -/
theorem engine_failure_persists_no_error_row :
    c5Turn.frames = [Frame.errorF "Query failed: boom" (some "X")] ∧
    (c5Turn.state.dbMessages.filter (fun r => r.type = "error")).length = 0 ∧
    c5Turn.state.dbMessages.length = 1 ∧
    c5Turn.state.queryActive = false ∧
    c5Turn.state.dbSession.is_active = false := by decide

/-- C5 (amended): when the engine stream throws a non-cancellation error,
the last frame broadcast to the subscribers is the terminal
`error{"Query failed: …"}` frame, the broadcast reaches exactly the
session's subscribers, no `error`-typed row is persisted, and the
session returns to idle with `is_active = false` persisted. -/
theorem engine_failure_broadcast_and_idle :
    ∀ (s : SessionState) (content : String) (events : List EngineEvent)
      (message : String) (now : ℕ),
      containsSubstr message "abort" = false →
      containsSubstr message "cancel" = false →
      (addUserMessage s content events (StreamOutcome.err message) now).frames.getLast?
          = some (Frame.errorF ("Query failed: " ++ message) (some s.id)) ∧
      broadcastRecipients
          (addUserMessage s content events (StreamOutcome.err message) now).state
        = s.subscribers ∧
      countType "error"
          (addUserMessage s content events (StreamOutcome.err message) now).state.dbMessages
        = countType "error" s.dbMessages ∧
      (addUserMessage s content events (StreamOutcome.err message) now).state.queryActive
        = false ∧
      (addUserMessage s content events (StreamOutcome.err message) now).state.dbSession.is_active
        = false := by
  intro s content events message now h1 h2
  refine ⟨addUserMessage_error_terminal s content events message now h1 h2,
    ?_,
    addUserMessage_error_rows s content events (StreamOutcome.err message) now,
    (addUserMessage_idle_after s content events (StreamOutcome.err message) now).1,
    (addUserMessage_idle_after s content events (StreamOutcome.err message) now).2⟩
  show broadcastRecipients _ = s.subscribers
  rw [broadcastRecipients,
    addUserMessage_subscribers s content events (StreamOutcome.err message) now]

/-- C5 (witness): the amended theorem applied to the concrete failing
turn `c5Turn` (error message `"boom"`). -/
theorem engine_failure_broadcast_and_idle_witness :
    containsSubstr "boom" "abort" = false ∧
    containsSubstr "boom" "cancel" = false ∧
    (c5Turn.frames.getLast?
        = some (Frame.errorF ("Query failed: " ++ "boom")
            (some (SessionState.mk0 "X" 0).id)) ∧
     broadcastRecipients c5Turn.state = (SessionState.mk0 "X" 0).subscribers ∧
     countType "error" c5Turn.state.dbMessages
        = countType "error" (SessionState.mk0 "X" 0).dbMessages ∧
     c5Turn.state.queryActive = false ∧
     c5Turn.state.dbSession.is_active = false) :=
  ⟨by decide, by decide,
    engine_failure_broadcast_and_idle (SessionState.mk0 "X" 0) "q" [] "boom" 3
      (by decide) (by decide)⟩

/-- C6 (counterexample): with three concurrent `addUserMessage` callers,
two callers can suspend on the same in-flight turn's promise; when it
resolves, both resume past their single busy-check and start engine
streams, reaching a state with two turns streaming at once for the same
session — "at most one turn runs at any instant" is false. -/
theorem two_waiters_interleave_streams :
    ReachableFrom init3 c6Bad ∧ streamCount c6Bad.tasks = 2 := by
  have h1 : ReachableFrom init3 c6s1 :=
    ReachableFrom.step ReachableFrom.refl (by decide)
  have h2 : ReachableFrom init3 c6s2 := ReachableFrom.step h1 (by decide)
  have h3 : ReachableFrom init3 c6s3 := ReachableFrom.step h2 (by decide)
  have h4 : ReachableFrom init3 c6s4 := ReachableFrom.step h3 (by decide)
  have h5 : ReachableFrom init3 c6s5 := ReachableFrom.step h4 (by decide)
  exact ⟨ReachableFrom.step h5 (by decide), by decide⟩

/-- C6 (amended): as long as at most one submitted prompt is ever
awaiting the in-flight turn — here, two concurrent callers in total —
at most one engine stream is in flight per session in every reachable
interleaving; the guarantee is lost with a second concurrent waiter
because the busy-check is an `if` executed once, not re-checked after
the `await`. -/
theorem single_waiter_single_stream :
    ∀ s : CState, ReachableFrom init2 s → streamCount s.tasks ≤ 1 :=
  fun s h => reach2_sound s (reachable2_mem_reach2 s h)

/-- C6 (witness): the amended theorem applied to the initial two-caller
state. -/
theorem single_waiter_single_stream_witness :
    ReachableFrom init2 init2 ∧ streamCount init2.tasks ≤ 1 :=
  ⟨ReachableFrom.refl, single_waiter_single_stream init2 ReachableFrom.refl⟩

/-- C7: a `subscribe` frame naming an unknown session id is answered
with exactly one `error "Session not found"` frame, no close action, and
no change to the session map or the client; naming a registered session
subscribes the client (the subscriber set gains the client id, the
client's current session id becomes the session's id) and replies with
the `session_info` snapshot followed by `subscribed`. -/
theorem subscribe_unknown_session_error :
    ∀ (hub : Hub) (c : Client) (n : ℕ) (sid freshId : String)
      (events : List EngineEvent) (outcome : StreamOutcome) (now : ℕ),
      (hubLookup hub sid = none →
        onMessage hub c n (Incoming.subscribeMsg sid) freshId events outcome now
          = { hub := hub, client := c,
              log := [WireAct.send [c.id] (Frame.errorF "Session not found" none)] }) ∧
      (∀ s, hubLookup hub sid = some s →
        (onMessage hub c n (Incoming.subscribeMsg sid) freshId events outcome now).log
          = [WireAct.send [c.id]
              (Frame.sessionInfoF s.id s.messageCount s.queryActive
                s.createdAt s.lastActivity),
             WireAct.send [c.id] (Frame.subscribed sid)] ∧
        (onMessage hub c n (Incoming.subscribeMsg sid) freshId events outcome now).client
          = { c with sessionId := s.id } ∧
        hubLookup (onMessage hub c n (Incoming.subscribeMsg sid) freshId
            events outcome now).hub sid = some (subscribe s c).1 ∧
        c.id ∈ (subscribe s c).1.subscribers) := by
  intro hub c n sid freshId events outcome now
  constructor
  · intro h
    simp only [onMessage, h]
  · intro s hs
    by_cases hcs : c.sessionId ≠ "" ∧ c.sessionId ≠ sid
    · cases hcur : hubLookup hub c.sessionId with
      | none =>
          simp only [onMessage, hs, if_pos hcs, hcur]
          refine ⟨rfl, rfl, ?_, ?_⟩
          · rw [hubLookup_hubUpdate_self]
            rw [hs]; rfl
          · simpa [subscribe] using mem_setInsert_self c.id s.subscribers
      | some cur =>
          simp only [onMessage, hs, if_pos hcs, hcur]
          refine ⟨rfl, rfl, ?_, ?_⟩
          · rw [hubLookup_hubUpdate_self]
            rw [hubLookup_hubUpdate_ne hub c.sessionId sid _
              (fun hh => hcs.2 hh.symm)]
            rw [hs]; rfl
          · simpa [subscribe] using mem_setInsert_self c.id s.subscribers
    · simp only [onMessage, hs, if_neg hcs]
      refine ⟨rfl, rfl, ?_, ?_⟩
      · rw [hubLookup_hubUpdate_self]
        rw [hs]; rfl
      · simpa [subscribe] using mem_setInsert_self c.id s.subscribers

/-- C7 (witness): both branches of the theorem applied to a one-session
map — an unknown id `"nope"` and the registered id `"W"`. -/
theorem subscribe_unknown_session_error_witness :
    hubLookup ([("W", SessionState.mk0 "W" 0)] : Hub) "nope" = none ∧
    onMessage [("W", SessionState.mk0 "W" 0)] ⟨"cw", ""⟩ 1
        (Incoming.subscribeMsg "nope") "f" [] StreamOutcome.ok 0
      = { hub := [("W", SessionState.mk0 "W" 0)], client := ⟨"cw", ""⟩,
          log := [WireAct.send ["cw"] (Frame.errorF "Session not found" none)] } ∧
    hubLookup ([("W", SessionState.mk0 "W" 0)] : Hub) "W"
      = some (SessionState.mk0 "W" 0) ∧
    ((onMessage [("W", SessionState.mk0 "W" 0)] ⟨"cw", ""⟩ 1
        (Incoming.subscribeMsg "W") "f" [] StreamOutcome.ok 0).log
      = [WireAct.send ["cw"]
          (Frame.sessionInfoF (SessionState.mk0 "W" 0).id
            (SessionState.mk0 "W" 0).messageCount
            (SessionState.mk0 "W" 0).queryActive
            (SessionState.mk0 "W" 0).createdAt
            (SessionState.mk0 "W" 0).lastActivity),
         WireAct.send ["cw"] (Frame.subscribed "W")] ∧
     (onMessage [("W", SessionState.mk0 "W" 0)] ⟨"cw", ""⟩ 1
        (Incoming.subscribeMsg "W") "f" [] StreamOutcome.ok 0).client
       = { (⟨"cw", ""⟩ : Client) with sessionId := (SessionState.mk0 "W" 0).id } ∧
     hubLookup (onMessage [("W", SessionState.mk0 "W" 0)] ⟨"cw", ""⟩ 1
        (Incoming.subscribeMsg "W") "f" [] StreamOutcome.ok 0).hub "W"
       = some (subscribe (SessionState.mk0 "W" 0) ⟨"cw", ""⟩).1 ∧
     (⟨"cw", ""⟩ : Client).id
       ∈ (subscribe (SessionState.mk0 "W" 0) ⟨"cw", ""⟩).1.subscribers) :=
  ⟨by decide,
    (subscribe_unknown_session_error [("W", SessionState.mk0 "W" 0)] ⟨"cw", ""⟩
      1 "nope" "f" [] StreamOutcome.ok 0).1 (by decide),
    by decide,
    (subscribe_unknown_session_error [("W", SessionState.mk0 "W" 0)] ⟨"cw", ""⟩
      1 "W" "f" [] StreamOutcome.ok 0).2 (SessionState.mk0 "W" 0) (by decide)⟩

/-- C8: subscribing the same client twice is the same as subscribing it
once — the subscriber set (a JavaScript `Set`), the client's
`ws.data.sessionId`, and therefore the recipient list of every
subsequent broadcast are identical to the single-subscribe case. -/
theorem subscribe_idempotent :
    ∀ (s : SessionState) (c : Client),
      (subscribe (subscribe s c).1 (subscribe s c).2.1).1 = (subscribe s c).1 ∧
      (subscribe (subscribe s c).1 (subscribe s c).2.1).2.1
        = (subscribe s c).2.1 ∧
      broadcastRecipients (subscribe (subscribe s c).1 (subscribe s c).2.1).1
        = broadcastRecipients (subscribe s c).1 := by
  intro s c
  refine ⟨?_, ?_, ?_⟩ <;> simp [subscribe, broadcastRecipients, setInsert_idem]

/-- C9 (counterexample): with the stored SDK session id equal to the
empty string — non-null — `addUserMessage` builds its engine options
without `resume`, because the source guard is JavaScript truthiness
(`this.sdkSessionId ? … : …`), not a null test.  "Passes resume iff the
stored engine session id is non-null" is therefore false. -/
theorem empty_resume_token_not_passed :
    c9Session.sdkSessionId ≠ none ∧
    (addUserMessage c9Session "x" [] StreamOutcome.ok 1).resumeUsed = none := by
  decide

/-- C9 (amended): `addUserMessage` passes `resume` to the engine iff the
stored SDK session id is non-null and non-empty (JavaScript truthiness);
`endConversation` clears the stored id, so the first turn after it omits
`resume`; and a `system{init}` event stores the id it carries for later
turns. -/
theorem resume_token_truthiness :
    ∀ (s : SessionState) (content : String) (events : List EngineEvent)
      (outcome : StreamOutcome) (now now' : ℕ) (sid : String),
      ((addUserMessage s content events outcome now).resumeUsed
        = match s.sdkSessionId with
          | some t => if t = "" then none else some t
          | none => none) ∧
      (endConversation s now').sdkSessionId = none ∧
      (addUserMessage (endConversation s now') content events outcome now).resumeUsed
        = none ∧
      (addUserMessage s content [EngineEvent.systemInit sid]
          StreamOutcome.ok now).state.sdkSessionId = some sid := by
  intro s content events outcome now now' sid
  refine ⟨addUserMessage_resumeUsed s content events outcome now, rfl, ?_,
    addUserMessage_init_capture s content sid now⟩
  rw [addUserMessage_resumeUsed]
  rfl

/-- C10: `createMessage` stores a cost of exactly `0` as SQL `NULL`
(`data.cost || null`), making the inserted row identical to one created
with no cost at all; an empty-string content is likewise stored as
`NULL`; and a zero-cost row contributes nothing to the `totalCost`
aggregate of `getStats`, which sums only non-`NULL` costs. -/
theorem zero_cost_stored_as_null :
    ∀ (sid ty : String) (sub con : Option String) (ts : ℕ) (du : Option ℕ)
      (rows : List DBRow),
      createMessage sid ty sub con ts (some 0) du
        = createMessage sid ty sub con ts none du ∧
      (createMessage sid ty sub (some "") ts (some 0) du).content = none ∧
      totalCost (rows ++ [createMessage sid ty sub con ts (some 0) du])
        = totalCost rows := by
  intro sid ty sub con ts du rows
  refine ⟨?_, ?_, ?_⟩ <;>
    simp [createMessage, jsOrNullNum, jsOrNullStr, totalCost,
      List.filterMap_append]

end CCSDK
